import Mathlib

/-!
Verification development for the traffic-storage repository.

The definitions below are a shallow embedding of the Python sources:

* `src/modules/storage/blockdag.py` — the BlockDAG ledger client
  (`store_metadata` retry loop, `fetch_metadata`, `_get_fresh_nonce`,
  `_calculate_optimal_gas_price`, `_simulate_transaction`, `_should_retry`);
* `src/api/utils/validators.py` — payload validators;
* `src/api/services/storage_service.py` — the upload/download orchestrator;
* `src/api/services/ipfs_service.py` — the content-store client.

External collaborators (the IPFS content store and the on-chain contract)
are not part of the repository; where their behaviour is needed it is
modelled from the spec's External Interfaces section and marked as such.

Network calls are modelled by explicit environment records: each call site
that can observe the outside world takes its observed result as input, and
the interpreter records the externally visible actions (sleeps, nonce
reads, transaction builds and broadcasts) in an event trace.
-/

namespace TrafficStorage

/-! ## Transaction submitter (`BlockDAGService.store_metadata`)

`src/modules/storage/blockdag.py`, lines 152-256 and helpers 424-488. -/

/-- Outcome of `_get_fresh_nonce` (blockdag.py lines 424-431): the first
`get_transaction_count(sender, "pending")` read may succeed, or fail once
(then the code sleeps 2 seconds and re-reads), or fail both times, in which
case the second exception propagates to the caller. -/
inductive NonceRead where
  | ok (n : Nat)
  | retryOk (n : Nat)
  | fail (msg : String)
deriving DecidableEq

/-- The observations one iteration of the retry loop makes of the outside
world.  `gasPrice` is the value `_calculate_optimal_gas_price` returns for
this attempt; that helper catches all of its own exceptions (lines 433-444)
so it never alters control flow and is analysed separately as
`calculate_optimal_gas_price`.  `sim` is `some msg` when the dry-run
`eth.call` raises, `send` is the result of `send_raw_transaction`, and
`wait` is the result of `wait_for_transaction_receipt` (an error message on
timeout, otherwise the receipt status). -/
structure AttemptEnv where
  nonce : NonceRead
  gasPrice : Nat
  sim : Option String
  send : Except String String
  wait : Except String Nat

/-- Externally visible actions of the submitter, in program order. -/
inductive SEvent where
  | attemptStarted (i : Nat)
  | nonceRetrySleep
  | nonceAcquired (n : Nat)
  | backoffSleep (seconds : Nat)
  | txBuilt
  | simulated
  | txSent
  | receiptObtained
  | nonceClassSleep
deriving DecidableEq

/-- Transaction receipt, reduced to the status field the loop inspects. -/
structure Receipt where
  status : Nat
deriving DecidableEq

/-- The nonce-contention error patterns of `_should_retry`
(blockdag.py lines 479-488). -/
def retry_errors : List String :=
  ["replacement transaction underpriced",
   "nonce too low",
   "already known",
   "Transaction with the same hash was already imported",
   "known transaction"]

/-- Whether the character list starting here begins with the pattern. -/
def charsStartWith : List Char → List Char → Bool
  | [], _ => true
  | _ :: _, [] => false
  | a :: as, b :: bs => a = b && charsStartWith as bs

/-- Whether the pattern occurs anywhere in the character list
(Python's `pat in msg` substring test). -/
def charsContain (pat : List Char) : List Char → Bool
  | [] => charsStartWith pat []
  | b :: bs => charsStartWith pat (b :: bs) || charsContain pat bs

/-- Python `pat in msg` on strings. -/
def strContains (msg pat : String) : Bool :=
  charsContain pat.data msg.data

/-- `BlockDAGService._should_retry` (blockdag.py lines 479-488). -/
def should_retry (error_msg : String) : Bool :=
  retry_errors.any fun err => strContains error_msg err

/-- The message of the `RuntimeError` raised by `_simulate_transaction`
when the dry-run call fails (blockdag.py line 454). -/
def simWrap (msg : String) : String :=
  "Transaction would probably fail: " ++ msg

/-- The backoff sleep of blockdag.py lines 199-202: only when
`attempt > 0`, for `min(2 ** attempt, 30)` seconds. -/
def backoffList (attempt : Nat) : List SEvent :=
  if 0 < attempt then [SEvent.backoffSleep (min (2 ^ attempt) 30)] else []

/-- Events after the transaction is built (blockdag.py lines 217-235):
simulate, sign-and-send, wait for the receipt.  Each list ends where the
corresponding Python step raises. -/
def postBuild (a : AttemptEnv) : List SEvent :=
  match a.sim with
  | some _ => []
  | none =>
    SEvent.simulated ::
      (match a.send with
       | .error _ => []
       | .ok _ =>
         SEvent.txSent ::
           (match a.wait with
            | .error _ => []
            | .ok _ => [SEvent.receiptObtained]))

/-- Result of one loop body from the build step on (blockdag.py lines
217-235): a simulation failure raises the wrapped `RuntimeError`; a send or
wait failure raises its own message; a receipt with status 1 returns the
receipt and any other status raises the on-chain revert message. -/
def attemptRes (a : AttemptEnv) : Except String Receipt :=
  match a.sim with
  | some msg => .error (simWrap msg)
  | none =>
    match a.send with
    | .error msg => .error msg
    | .ok _ =>
      match a.wait with
      | .error msg => .error msg
      | .ok status =>
        if status = 1 then .ok ⟨status⟩
        else .error "Transaction reverted or failed on-chain"

/-- One iteration of the retry loop (blockdag.py lines 184-235): acquire
the nonce under the lock (with the internal 2-second retry of
`_get_fresh_nonce`), compute the gas price, backoff-sleep when
`attempt > 0`, build, then run the post-build steps.  When both nonce reads
fail the exception reaches the iteration's handler before anything is
built. -/
def runAttempt (a : AttemptEnv) (attempt : Nat) : List SEvent × Except String Receipt :=
  match a.nonce with
  | .fail msg => ([SEvent.attemptStarted attempt, SEvent.nonceRetrySleep], .error msg)
  | .ok n =>
    (SEvent.attemptStarted attempt :: SEvent.nonceAcquired n ::
      (backoffList attempt ++ SEvent.txBuilt :: postBuild a), attemptRes a)
  | .retryOk n =>
    (SEvent.attemptStarted attempt :: SEvent.nonceRetrySleep :: SEvent.nonceAcquired n ::
      (backoffList attempt ++ SEvent.txBuilt :: postBuild a), attemptRes a)

/-- The `BlockDAGError` message raised after the loop exhausts all
attempts (blockdag.py lines 254-256); Python prints `None` for an absent
last error. -/
def exhaustedMsg (lastErr : Option String) : String :=
  "Failed to send transaction after 7 retries. Last error: " ++
    (match lastErr with | some m => m | none => "None")

/-- The retry loop of `store_metadata` (blockdag.py lines 184-256),
structurally recursive on the remaining attempts.  A failed iteration whose
message matches `_should_retry` sleeps 3 seconds and continues; any other
failure also continues (the `elif attempt < MAX_RETRIES - 1` branch) or, on
the last attempt, breaks — both ending in the exhausted `BlockDAGError`. -/
def storeGo (env : Nat → AttemptEnv) :
    Nat → Nat → Option String → List SEvent × Except String Receipt
  | _, 0, lastErr => ([], .error (exhaustedMsg lastErr))
  | attempt, rem + 1, _ =>
    match runAttempt (env attempt) attempt with
    | (evs, .ok receipt) => (evs, .ok receipt)
    | (evs, .error msg) =>
      if should_retry msg then
        match storeGo env (attempt + 1) rem (some msg) with
        | (evs2, r) => (evs ++ SEvent.nonceClassSleep :: evs2, r)
      else
        match storeGo env (attempt + 1) rem (some msg) with
        | (evs2, r) => (evs ++ evs2, r)

/-- `BlockDAGService.store_metadata` (blockdag.py lines 152-256):
`MAX_RETRIES = 7`; the pre-loop `_check_node_status` and `_check_balance`
calls swallow their own exceptions and are observationally silent. -/
def store_metadata (configured : Bool) (env : Nat → AttemptEnv) :
    List SEvent × Except String Receipt :=
  if configured then storeGo env 0 7 none
  else ([], .error "BlockDAG contract not configured or private key missing")

/-- Number of loop iterations recorded in a trace. -/
def countAttempts (evs : List SEvent) : Nat :=
  evs.countP fun e => match e with | SEvent.attemptStarted _ => true | _ => false

/-- Number of nonce acquisitions recorded in a trace. -/
def countNonces (evs : List SEvent) : Nat :=
  evs.countP fun e => match e with | SEvent.nonceAcquired _ => true | _ => false

/-- The backoff sleeps recorded in a trace, in order. -/
def backoffsOf (evs : List SEvent) : List Nat :=
  evs.filterMap fun e => match e with | SEvent.backoffSleep s => some s | _ => none

/-- Whether an event is one of the three sleeps the loop can perform
(2-second nonce-read retry, exponential backoff, 3-second nonce-class
delay). -/
def isSleep : SEvent → Bool
  | SEvent.nonceRetrySleep => true
  | SEvent.backoffSleep _ => true
  | SEvent.nonceClassSleep => true
  | _ => false

lemma countAttempts_backoffList (i : Nat) : countAttempts (backoffList i) = 0 := by
  unfold countAttempts backoffList
  split <;> simp

lemma countAttempts_postBuild (a : AttemptEnv) : countAttempts (postBuild a) = 0 := by
  unfold countAttempts postBuild
  cases hsim : a.sim with
  | some m => simp
  | none =>
    cases hsend : a.send with
    | error m => simp
    | ok h =>
      cases hwait : a.wait with
      | error m => simp
      | ok s => simp

lemma countAttempts_runAttempt (a : AttemptEnv) (i : Nat) :
    countAttempts (runAttempt a i).1 = 1 := by
  have hb := countAttempts_backoffList i
  have hpb := countAttempts_postBuild a
  unfold countAttempts at hb hpb ⊢
  cases hn : a.nonce with
  | fail msg => simp [runAttempt, hn]
  | ok n => simp [runAttempt, hn, List.countP_cons, List.countP_append, hb, hpb]
  | retryOk n => simp [runAttempt, hn, List.countP_cons, List.countP_append, hb, hpb]

lemma countNonces_backoffList (i : Nat) : countNonces (backoffList i) = 0 := by
  unfold countNonces backoffList
  split <;> simp

lemma countNonces_postBuild (a : AttemptEnv) : countNonces (postBuild a) = 0 := by
  unfold countNonces postBuild
  cases hsim : a.sim with
  | some m => simp
  | none =>
    cases hsend : a.send with
    | error m => simp
    | ok h =>
      cases hwait : a.wait with
      | error m => simp
      | ok s => simp

lemma countNonces_runAttempt_ok (a : AttemptEnv) (i n : Nat)
    (h : a.nonce = NonceRead.ok n) :
    countNonces (runAttempt a i).1 = 1 := by
  have hb := countNonces_backoffList i
  have hpb := countNonces_postBuild a
  unfold countNonces at hb hpb ⊢
  simp [runAttempt, h, List.countP_cons, List.countP_append, hb, hpb]

/-- Exhaustion lemma for the retry loop: when every remaining iteration
fails, the loop performs all of them (each contributing one `p`-counted
event) and raises the exhausted error carrying the last message. -/
lemma storeGo_fail (env : Nat → AttemptEnv) (e : Nat → String) (p : SEvent → Bool)
    (hp : p SEvent.nonceClassSleep = false) :
    ∀ rem a lastErr,
      (∀ i, a ≤ i → i < a + rem →
        (runAttempt (env i) i).2 = Except.error (e i) ∧
        ((runAttempt (env i) i).1.countP p = 1)) →
      ((storeGo env a rem lastErr).1.countP p = rem ∧
       (storeGo env a rem lastErr).2 =
         Except.error (exhaustedMsg (if rem = 0 then lastErr else some (e (a + rem - 1))))) := by
  intro rem
  induction rem with
  | zero =>
    intro a lastErr _
    simp [storeGo]
  | succ rem ih =>
    intro a lastErr h
    obtain ⟨herr, hcnt⟩ := h a (Nat.le_refl a) (by omega)
    have ihA := ih (a + 1) (some (e a)) (fun i h1 h2 => h i (by omega) (by omega))
    cases hra : runAttempt (env a) a with
    | mk evs res =>
      rw [hra] at herr hcnt
      have hres : res = Except.error (e a) := herr
      have hcnt2 : evs.countP p = 1 := hcnt
      subst hres
      cases hsg : storeGo env (a + 1) rem (some (e a)) with
      | mk evs2 r =>
        rw [hsg] at ihA
        have hcnt3 : evs2.countP p = rem := ihA.1
        have hres3 : r = Except.error
            (exhaustedMsg (if rem = 0 then some (e a) else some (e (a + 1 + rem - 1)))) := ihA.2
        have hidx : (if rem = 0 then some (e a) else some (e (a + 1 + rem - 1)))
            = some (e (a + rem)) := by
          cases rem with
          | zero => simp
          | succ k =>
            have hk : a + 1 + (k + 1) - 1 = a + (k + 1) := by omega
            simp [hk]
        rw [hidx] at hres3
        have hgoalidx : a + (rem + 1) - 1 = a + rem := by omega
        simp only [storeGo, hra]
        by_cases hr : should_retry (e a)
        · simp [hr, hsg, List.countP_append, List.countP_cons, hp, hcnt2, hcnt3,
            hres3, hgoalidx, Nat.add_comm]
        · simp [hr, hsg, List.countP_append, hcnt2, hcnt3, hres3, hgoalidx,
            Nat.add_comm]

/-- Environment in which the dry-run simulation fails on every attempt
with a fatal, non-nonce revert; every other step would succeed. -/
def simFailEnv : Nat → AttemptEnv := fun _ =>
  { nonce := NonceRead.ok 5, gasPrice := 1000,
    sim := some "execution reverted: bad input",
    send := Except.ok "h", wait := Except.ok 1 }

/-- C1 counterexample: with a persistent fatal (non-nonce) simulation
revert, `store_metadata` does NOT fail immediately: it performs all 7
attempts, acquires 7 nonces, and only then raises the exhausted
`BlockDAGError` — refuting the claimed simulation short-circuit. -/
theorem C1_counterexample :
    should_retry (simWrap "execution reverted: bad input") = false ∧
    countAttempts (store_metadata true simFailEnv).1 = 7 ∧
    countNonces (store_metadata true simFailEnv).1 = 7 ∧
    (store_metadata true simFailEnv).2 = Except.error
      ("Failed to send transaction after 7 retries. Last error: " ++
        "Transaction would probably fail: execution reverted: bad input") :=
  ⟨by decide, by decide, by decide, rfl⟩

/-- C1 amended: a fatal (non-nonce) dry-run simulation failure does not
abort `store_metadata`; it is handled like any other attempt failure, so
when the simulation fails fatally on every attempt the loop performs all
7 attempts, acquiring a fresh nonce on each, and then fails with the
exhausted `BlockDAGError` carrying the last simulation error. -/
theorem C1_amended_no_short_circuit (env : Nat → AttemptEnv)
    (n : Nat → Nat) (m : Nat → String)
    (hn : ∀ i, i < 7 → (env i).nonce = NonceRead.ok (n i))
    (hs : ∀ i, i < 7 → (env i).sim = some (m i))
    (hfatal : ∀ i, i < 7 → should_retry (simWrap (m i)) = false) :
    countAttempts (store_metadata true env).1 = 7 ∧
    countNonces (store_metadata true env).1 = 7 ∧
    (store_metadata true env).2 =
      Except.error (exhaustedMsg (some (simWrap (m 6)))) := by
  have herr : ∀ i, i < 7 → (runAttempt (env i) i).2 = Except.error (simWrap (m i)) := by
    intro i hi
    unfold runAttempt
    rw [hn i hi]
    show attemptRes (env i) = _
    unfold attemptRes
    rw [hs i hi]
  have h1 := storeGo_fail env (fun i => simWrap (m i))
    (fun e => match e with | SEvent.attemptStarted _ => true | _ => false) rfl 7 0 none
    (fun i _ h2 => ⟨herr i (by omega), countAttempts_runAttempt (env i) i⟩)
  have h2 := storeGo_fail env (fun i => simWrap (m i))
    (fun e => match e with | SEvent.nonceAcquired _ => true | _ => false) rfl 7 0 none
    (fun i _ hlt => ⟨herr i (by omega),
      countNonces_runAttempt_ok (env i) i (n i) (hn i (by omega))⟩)
  refine ⟨h1.1, h2.1, ?_⟩
  have := h1.2
  simpa using this

/-- C1 witness: the amended theorem applied to the concrete environment of
the counterexample. -/
theorem C1_witness :
    (∀ i, i < 7 → (simFailEnv i).nonce = NonceRead.ok 5) ∧
    (∀ i, i < 7 → (simFailEnv i).sim = some "execution reverted: bad input") ∧
    (∀ i, i < 7 → should_retry (simWrap "execution reverted: bad input") = false) ∧
    (countAttempts (store_metadata true simFailEnv).1 = 7 ∧
     countNonces (store_metadata true simFailEnv).1 = 7 ∧
     (store_metadata true simFailEnv).2 =
       Except.error (exhaustedMsg (some (simWrap "execution reverted: bad input")))) :=
  ⟨fun _ _ => rfl, fun _ _ => rfl, fun _ _ => by decide,
   C1_amended_no_short_circuit simFailEnv (fun _ => 5)
     (fun _ => "execution reverted: bad input")
     (fun _ _ => rfl) (fun _ _ => rfl)
     (fun _ _ =>
       (by decide : should_retry (simWrap "execution reverted: bad input") = false))⟩

/-- C2 (confirmed): if every attempt of the ledger write fails with a
transient (non-nonce-class) error, `store_metadata` makes exactly 7
attempts and then fails with the exhausted `BlockDAGError` carrying the
last observed error. -/
theorem C2_retry_bound (env : Nat → AttemptEnv) (e : Nat → String)
    (herr : ∀ i, i < 7 → (runAttempt (env i) i).2 = Except.error (e i))
    (htransient : ∀ i, i < 7 → should_retry (e i) = false) :
    countAttempts (store_metadata true env).1 = 7 ∧
    (store_metadata true env).2 = Except.error (exhaustedMsg (some (e 6))) := by
  have h1 := storeGo_fail env e
    (fun ev => match ev with | SEvent.attemptStarted _ => true | _ => false) rfl 7 0 none
    (fun i _ h2 => ⟨herr i (by omega), countAttempts_runAttempt (env i) i⟩)
  refine ⟨h1.1, ?_⟩
  have := h1.2
  simpa using this

/-- Environment in which the broadcast fails with a transient network
error on every attempt. -/
def transientFailEnv : Nat → AttemptEnv := fun _ =>
  { nonce := NonceRead.ok 9, gasPrice := 1, sim := none,
    send := Except.error "connection timeout", wait := Except.ok 1 }

/-- C2 witness: the retry bound applied to a concrete always-transient
environment. -/
theorem C2_witness :
    (∀ i, i < 7 →
      (runAttempt (transientFailEnv i) i).2 = Except.error "connection timeout") ∧
    (∀ i, i < 7 → should_retry "connection timeout" = false) ∧
    countAttempts (store_metadata true transientFailEnv).1 = 7 ∧
    (store_metadata true transientFailEnv).2 =
      Except.error (exhaustedMsg (some "connection timeout")) :=
  ⟨fun _ _ => rfl, fun _ _ => by decide,
   (C2_retry_bound transientFailEnv (fun _ => "connection timeout")
     (fun _ _ => rfl)
     (fun _ _ => (by decide : should_retry "connection timeout" = false))).1,
   (C2_retry_bound transientFailEnv (fun _ => "connection timeout")
     (fun _ _ => rfl)
     (fun _ _ => (by decide : should_retry "connection timeout" = false))).2⟩

/-- A concrete attempt whose first nonce read fails transiently, so
`_get_fresh_nonce` sleeps 2 seconds before its successful second read;
everything else succeeds. -/
def retryNonceAttempt : AttemptEnv :=
  { nonce := NonceRead.retryOk 5, gasPrice := 100, sim := none,
    send := Except.ok "h", wait := Except.ok 1 }

/-- C6 counterexample: on attempt 0 the submitter CAN sleep — the
2-second retry sleep inside `_get_fresh_nonce` (blockdag.py line 430)
occurs before the transaction is built, and the attempt still proceeds to
build, broadcast and succeed.  This refutes the claim that for attempt 0
the submitter does not sleep at all. -/
theorem C6_counterexample :
    (runAttempt retryNonceAttempt 0).1 =
      [SEvent.attemptStarted 0, SEvent.nonceRetrySleep, SEvent.nonceAcquired 5,
       SEvent.txBuilt, SEvent.simulated, SEvent.txSent, SEvent.receiptObtained] ∧
    (runAttempt retryNonceAttempt 0).1.any isSleep = true ∧
    (runAttempt retryNonceAttempt 0).2 = Except.ok ⟨1⟩ :=
  ⟨rfl, by decide, rfl⟩

/-- C6 amended: in every attempt iteration that reaches the build step —
the nonce read succeeded either directly or after the internal 2-second
retry — the trace is the attempt start, then a pre-nonce segment that is
empty or the single 2-second nonce-retry sleep, then the nonce
acquisition, then the backoff, then the build and post-build steps.  The
backoff is exactly one sleep of `min(2 ^ attempt, 30)` seconds when
`attempt > 0` and absent when `attempt = 0`, no backoff sleep occurs
before the nonce acquisition or after the build, and the only other sleep
possible before the build is the 2-second nonce-read retry — so attempt 0
is not sleep-free in general. -/
theorem C6_amended_backoff (a : AttemptEnv) (i n : Nat)
    (h : a.nonce = NonceRead.ok n ∨ a.nonce = NonceRead.retryOk n) :
    (∃ pre, (runAttempt a i).1 =
        SEvent.attemptStarted i :: (pre ++ SEvent.nonceAcquired n ::
          (backoffList i ++ SEvent.txBuilt :: postBuild a)) ∧
      (pre = [] ∨ pre = [SEvent.nonceRetrySleep]) ∧
      backoffsOf pre = []) ∧
    backoffList 0 = [] ∧
    (0 < i → backoffList i = [SEvent.backoffSleep (min (2 ^ i) 30)]) ∧
    backoffsOf (postBuild a) = [] := by
  refine ⟨?_, rfl, fun hi => by simp [backoffList, hi], ?_⟩
  · rcases h with h | h
    · exact ⟨[], by simp [runAttempt, h], Or.inl rfl, rfl⟩
    · exact ⟨[SEvent.nonceRetrySleep], by simp [runAttempt, h], Or.inr rfl, rfl⟩
  · unfold backoffsOf postBuild
    cases hsim : a.sim with
    | some m => simp
    | none =>
      cases hsend : a.send with
      | error m => simp
      | ok hh =>
        cases hwait : a.wait with
        | error m => simp
        | ok s => simp

/-- C6 witness: the amended backoff shape at a concrete attempt whose
nonce read needed the internal retry, on attempt 2. -/
theorem C6_witness :
    (retryNonceAttempt.nonce = NonceRead.ok 5 ∨
      retryNonceAttempt.nonce = NonceRead.retryOk 5) ∧
    ((∃ pre, (runAttempt retryNonceAttempt 2).1 =
        SEvent.attemptStarted 2 :: (pre ++ SEvent.nonceAcquired 5 ::
          (backoffList 2 ++ SEvent.txBuilt :: postBuild retryNonceAttempt)) ∧
      (pre = [] ∨ pre = [SEvent.nonceRetrySleep]) ∧
      backoffsOf pre = []) ∧
     backoffList 0 = [] ∧
     (0 < 2 → backoffList 2 = [SEvent.backoffSleep (min (2 ^ 2) 30)]) ∧
     backoffsOf (postBuild retryNonceAttempt) = []) :=
  ⟨Or.inr rfl, C6_amended_backoff retryNonceAttempt 2 5 (Or.inr rfl)⟩

/-! ## Payload validators (`src/api/utils/validators.py`) and the
upload/download orchestrator (`src/api/services/storage_service.py`). -/

/-- The two payload types of `models/schemas.py` (`DataBatch` and
`OptimizationBatch`); pydantic's `Literal` fields make any other value
unrepresentable. -/
inductive DType where
  | data
  | optimization
deriving DecidableEq

/-- `settings.DATA_TYPE_MAP` (config/settings.py): data maps to 0,
optimization to 1. -/
def DATA_TYPE_MAP : DType → Nat
  | DType.data => 0
  | DType.optimization => 1

/-- The validated upload payload (`UploadModel` of models/schemas.py).
`entries` is the type-specific array (`sensors` for data payloads,
`optimizations` for optimization payloads) with its elements kept
abstract; the four scalar fields are the ones the validators and the
orchestrator read. -/
structure UploadModel where
  version : String
  type : DType
  timestamp : Int
  traffic_light_id : String
  entries : List String
deriving DecidableEq

/-- Python's `re.match(r'^\d+$', s)` (validators.py line 18): one or more
digits; in Python, `$` also matches immediately before a single newline at
the very end of the string, so a trailing `"\n"` is accepted.  Python's
`\d` matches every Unicode decimal digit; this model uses the ASCII
digits, so it is exact precisely on ASCII strings, and the theorems that
rest on it carry an all-ASCII hypothesis on the id. -/
def tlidRegexAccepts (s : String) : Bool :=
  let cs := s.data
  let core := if cs.getLast? = some '\n' then cs.dropLast else cs
  !core.isEmpty && core.all (fun c => c.isDigit)

/-- `validate_traffic_light_id` (validators.py lines 5-20). -/
def validate_traffic_light_id (traffic_light_id : String) : Except String Bool :=
  if tlidRegexAccepts traffic_light_id then Except.ok true
  else Except.error
    ("Invalid traffic_light_id format: " ++ traffic_light_id ++ ". Expected only numbers.")

/-- `validate_timestamp` (validators.py lines 42-65); the `isinstance`
integer check is enforced here by the `Int` type, which mirrors the
pydantic `int` field. -/
def validate_timestamp (timestamp : Int) : Except String Bool :=
  if timestamp < 946684800 ∨ timestamp > 4102444800 then
    Except.error ("Timestamp " ++ toString timestamp ++
      " is outside valid range (946684800-4102444800)")
  else Except.ok true

/-- `validate_sensor_count` (validators.py lines 22-40) with the settings
bounds `MIN_SENSORS_PER_BATCH = 1`, `MAX_SENSORS_PER_BATCH = 10`. -/
def validate_sensor_count (sensors : List String) : Except String Bool :=
  if sensors.length < 1 then
    Except.error ("Too few sensors: " ++ toString sensors.length ++ ". Minimum required: 1")
  else if sensors.length > 10 then
    Except.error ("Too many sensors: " ++ toString sensors.length ++ ". Maximum allowed: 10")
  else Except.ok true

/-- The message of the exception every failing validation actually
raises: `ValidationError` is neither defined nor imported in
validators.py, so evaluating the name at line 106 raises
`NameError("name 'ValidationError' is not defined")`. -/
def nameErrorMsg : String := "name 'ValidationError' is not defined"

/-- `validate_data_payload` (validators.py lines 67-106).  The
required-field presence checks always pass for a typed `UploadModel`, and
the `type in DATA_TYPE_MAP` check is total on `DType`.  When any inner
check raises `ValueError`, the handler at line 106 evaluates the
unimported name `ValidationError` and therefore raises `NameError` —
the `ValueError` message is lost and the surfaced message is always
`nameErrorMsg`. -/
def validate_data_payload (m : UploadModel) : Except String Bool :=
  match validate_traffic_light_id m.traffic_light_id with
  | .error _ => .error nameErrorMsg
  | .ok _ =>
    match validate_timestamp m.timestamp with
    | .error _ => .error nameErrorMsg
    | .ok _ =>
      match (if m.type = DType.data then validate_sensor_count m.entries
             else Except.ok true) with
      | .error _ => .error nameErrorMsg
      | .ok _ => .ok true

/-- The ledger key: `(traffic_light_id, timestamp, data_type)` as passed
to the contract calls. -/
structure LKey where
  tlid : String
  ts : Int
  dtype : Nat
deriving DecidableEq

/-- The state of the two external stores.  Modelled from the spec:
the content store (spec section 4.1) maps each returned CID to the stored
payload, and the ledger contract (spec section 6) maps a key to the CID
recorded by `storeRecord`. -/
structure World where
  ipfs : List (String × UploadModel)
  ledger : List (LKey × String)
deriving DecidableEq

/-- First association for a ledger key. -/
def assocFind (k : LKey) : List (LKey × String) → Option String
  | [] => none
  | (k2, v) :: rest => if k2 = k then some v else assocFind k rest

/-- First association for a CID in the content store. -/
def ipfsFind (cid : String) : List (String × UploadModel) → Option UploadModel
  | [] => none
  | (c, v) :: rest => if c = cid then some v else ipfsFind cid rest

/-- The environment of one upload call: `cidOf` is the identifier the
content store assigns to a payload (spec section 4.1: deterministic for
the store's encoding of the bytes), `ipfsOk` and `ledgerOk` say whether
the content upload and the ledger write (after all submitter retries)
succeed, and the two message fields carry the failure texts. -/
structure UpEnv where
  cidOf : UploadModel → String
  ipfsOk : Bool
  ledgerOk : Bool
  ipfsErr : String
  ledgerErr : String

/-- Externally visible writes of the orchestrator. -/
inductive OEvent where
  | contentUpload (cid : String)
  | ledgerWrite (key : LKey) (cid : String)
deriving DecidableEq

/-- The ledger key built from an upload payload
(storage_service.py lines 44-52). -/
def keyOf (m : UploadModel) : LKey :=
  ⟨m.traffic_light_id, m.timestamp, DATA_TYPE_MAP m.type⟩

/-- `StorageService._prepare_upload_response`
(storage_service.py lines 106-140). -/
structure UploadResponse where
  message : String
  cid : String
  rtype : DType
  timestamp : Int
  traffic_light_id : String
  sensors_count : Option Nat
deriving DecidableEq

/-- Builds the upload response; data payloads carry a sensors count. -/
def prepare_upload_response (m : UploadModel) (cid : String) : UploadResponse :=
  { message := if m.type = DType.data then "Data uploaded successfully"
               else "Optimization metadata uploaded successfully"
  , cid := cid, rtype := m.type, timestamp := m.timestamp
  , traffic_light_id := m.traffic_light_id
  , sensors_count := if m.type = DType.data then some m.entries.length else none }

/-- Result of one upload call: its write trace, the resulting store
state, and the returned response or raised `UploadError` message. -/
structure UploadOut where
  trace : List OEvent
  world : World
  result : Except String UploadResponse

/-- `StorageService.upload_metadata` (storage_service.py lines 19-66):
validate, upload the payload to the content store, then record the
returned CID under the payload's key in the ledger.  The
`except ValidationError` branch of lines 61-63 is unreachable: a failing
validation raises `NameError` (see `validate_data_payload`), which the
generic `except Exception` handler of lines 64-66 wraps as
`UploadError("Upload failed: ...")`, as it wraps every other failure.
On a content-store success followed by a ledger failure the stored blob
remains in place — the orchestrator attempts no deletion (there is no
delete call in the source, and the spec notes the store offers none). -/
def upload_metadata (env : UpEnv) (w : World) (m : UploadModel) : UploadOut :=
  match validate_data_payload m with
  | .error e => ⟨[], w, .error ("Upload failed: " ++ e)⟩
  | .ok _ =>
    if env.ipfsOk then
      let cid := env.cidOf m
      let w1 : World := { w with ipfs := (cid, m) :: w.ipfs }
      if env.ledgerOk then
        ⟨[OEvent.contentUpload cid, OEvent.ledgerWrite (keyOf m) cid],
         { w1 with ledger := (keyOf m, cid) :: w1.ledger },
         .ok (prepare_upload_response m cid)⟩
      else
        ⟨[OEvent.contentUpload cid, OEvent.ledgerWrite (keyOf m) cid], w1,
         .error ("Upload failed: " ++ env.ledgerErr)⟩
    else ⟨[], w, .error ("Upload failed: " ++ env.ipfsErr)⟩

/-! ## Ledger read path (`BlockDAGService.fetch_metadata`,
src/modules/storage/blockdag.py lines 258-355) and download
(`StorageService.download_metadata`, storage_service.py lines 68-104). -/

/-- Connectivity observations of one fetch call: whether a contract is
configured, whether `w3.is_connected()` holds, and whether contract code
is present at the address. -/
structure FetchEnv where
  configured : Bool
  connected : Bool
  codePresent : Bool
deriving DecidableEq

/-- Modelled from the spec: the contract's read call
`getRecord(device_id, timestamp, record_type)` (spec section 6) returns
the recorded CID, or the empty string when no entry exists for the key. -/
def getRecord (w : World) (k : LKey) : String :=
  match assocFind k w.ledger with
  | some cid => cid
  | none => ""

/-- Python's `str.strip()`: the string without leading and trailing
whitespace. -/
def pyStrip (s : String) : String :=
  ⟨((s.data.dropWhile Char.isWhitespace).reverse.dropWhile Char.isWhitespace).reverse⟩

/-- The not-found `BlockDAGError` message
(blockdag.py lines 305-308). -/
def notFoundMsg (k : LKey) : String :=
  "Record not found for traffic_light_id: " ++ k.tlid ++
    ", timestamp: " ++ toString k.ts ++ ", data_type: " ++ toString k.dtype

/-- `BlockDAGService.fetch_metadata` (blockdag.py lines 258-311):
configuration, connectivity and contract-code guards, then the read call;
an empty or whitespace-only identifier is reported as the not-found
`BlockDAGError` instead of being returned.  (The exception-translation
branches of lines 313-355 rewrap transport errors and are outside the
observations this model takes.) -/
def fetch_metadata (env : FetchEnv) (w : World) (k : LKey) : Except String String :=
  if env.configured = false then
    .error "BlockDAG contract not configured"
  else if env.connected = false then
    .error "Not connected to BlockDAG network. Please check RPC URL and network connectivity."
  else if env.codePresent = false then
    .error "Contract not found at address. Contract may have been removed or address is incorrect."
  else
    let cid := getRecord w k
    if pyStrip cid = "" then .error (notFoundMsg k)
    else .ok cid

/-- A download request (`DownloadRequest` of models/schemas.py). -/
structure DownloadRequest where
  traffic_light_id : String
  timestamp : Int
  rtype : DType
deriving DecidableEq

/-- The download request that targets the key of an uploaded payload. -/
def reqOf (m : UploadModel) : DownloadRequest :=
  ⟨m.traffic_light_id, m.timestamp, m.type⟩

/-- `StorageService.download_metadata` (storage_service.py lines 68-104):
resolve the CID through the ledger, then fetch the payload from the
content store (`IPFSService.download_json`, modelled from the spec as the
lookup of the stored bytes by identifier); any failure is wrapped as
`DownloadError("Download failed: ...")`. -/
def download_metadata (fenv : FetchEnv) (w : World) (req : DownloadRequest) :
    Except String UploadModel :=
  match fetch_metadata fenv w ⟨req.traffic_light_id, req.timestamp, DATA_TYPE_MAP req.rtype⟩ with
  | .error e => .error ("Download failed: " ++ e)
  | .ok cid =>
    match ipfsFind cid w.ipfs with
    | none => .error ("Download failed: content not found for CID " ++ cid)
    | some data => .ok data

/-- C3 (confirmed): fetching a key for which the ledger holds no entry —
so the contract read returns the empty identifier — fails with the
not-found `BlockDAGError` instead of returning the empty identifier. -/
theorem C3_fetch_not_found (env : FetchEnv) (w : World) (k : LKey)
    (h1 : env.configured = true) (h2 : env.connected = true)
    (h3 : env.codePresent = true) (h4 : assocFind k w.ledger = none) :
    fetch_metadata env w k = Except.error (notFoundMsg k) ∧
    fetch_metadata env w k ≠ Except.ok "" := by
  have hg : getRecord w k = "" := by simp [getRecord, h4]
  have hmain : fetch_metadata env w k = Except.error (notFoundMsg k) := by
    simp [fetch_metadata, h1, h2, h3, hg, pyStrip]
  exact ⟨hmain, by rw [hmain]; simp⟩

/-- C3 witness: a never-written key on an empty ledger resolves to the
not-found error. -/
theorem C3_witness :
    (FetchEnv.mk true true true).configured = true ∧
    assocFind ⟨"99", 1700000000, 0⟩ (World.mk [] []).ledger = none ∧
    (fetch_metadata ⟨true, true, true⟩ ⟨[], []⟩ ⟨"99", 1700000000, 0⟩ =
        Except.error (notFoundMsg ⟨"99", 1700000000, 0⟩) ∧
      fetch_metadata ⟨true, true, true⟩ ⟨[], []⟩ ⟨"99", 1700000000, 0⟩ ≠ Except.ok "") :=
  ⟨rfl, rfl, C3_fetch_not_found ⟨true, true, true⟩ ⟨[], []⟩ ⟨"99", 1700000000, 0⟩
    rfl rfl rfl rfl⟩

/-- C4 (confirmed): for a valid record, uploading and then downloading
with the key the upload used returns the identical payload: the upload
stores the payload under the store-assigned CID, records that CID under
the record's key, and the download resolves the same key to the same CID
and fetches the same payload.  Payload identity stands for
byte-equivalence after canonical JSON normalization. -/
theorem C4_round_trip (env : UpEnv) (fenv : FetchEnv) (w : World) (m : UploadModel)
    (hv : validate_data_payload m = Except.ok true)
    (hi : env.ipfsOk = true) (hl : env.ledgerOk = true)
    (hc : fenv.configured = true) (hcon : fenv.connected = true)
    (hcode : fenv.codePresent = true)
    (hcid : pyStrip (env.cidOf m) ≠ "") :
    (∃ resp, (upload_metadata env w m).result = Except.ok resp ∧
       resp.cid = env.cidOf m) ∧
    download_metadata fenv (upload_metadata env w m).world (reqOf m) = Except.ok m := by
  have hup : upload_metadata env w m =
      ⟨[OEvent.contentUpload (env.cidOf m), OEvent.ledgerWrite (keyOf m) (env.cidOf m)],
       ⟨(env.cidOf m, m) :: w.ipfs, (keyOf m, env.cidOf m) :: w.ledger⟩,
       Except.ok (prepare_upload_response m (env.cidOf m))⟩ := by
    simp [upload_metadata, hv, hi, hl]
  constructor
  · exact ⟨prepare_upload_response m (env.cidOf m), by rw [hup], rfl⟩
  · rw [hup]
    simp [download_metadata, fetch_metadata, hc, hcon, hcode, getRecord,
      assocFind, keyOf, reqOf, hcid, ipfsFind]

/-- The valid example payload of the spec's scenario section. -/
def exampleModel : UploadModel := ⟨"2.0", DType.data, 1700000000, "21", ["s1"]⟩

/-- An environment in which both stores accept the writes. -/
def okEnv : UpEnv := ⟨fun _ => "QmX", true, true, "ipfs down", "ledger down"⟩

/-- A fetch environment with full connectivity. -/
def okFetchEnv : FetchEnv := ⟨true, true, true⟩

/-- C4 witness: the round trip at the concrete example payload. -/
theorem C4_witness :
    validate_data_payload exampleModel = Except.ok true ∧
    pyStrip (okEnv.cidOf exampleModel) ≠ "" ∧
    ((∃ resp, (upload_metadata okEnv ⟨[], []⟩ exampleModel).result = Except.ok resp ∧
        resp.cid = okEnv.cidOf exampleModel) ∧
     download_metadata okFetchEnv (upload_metadata okEnv ⟨[], []⟩ exampleModel).world
        (reqOf exampleModel) = Except.ok exampleModel) :=
  ⟨rfl, by decide,
   C4_round_trip okEnv okFetchEnv ⟨[], []⟩ exampleModel rfl rfl rfl rfl rfl rfl (by decide)⟩

/-- C5 (confirmed): in every upload that passes validation and whose
content upload succeeds, the write trace is exactly the content-store
upload followed by the ledger write of the very CID the content store
returned; and when the ledger write ultimately fails, the uploaded blob
is still present in the content store (no compensating deletion) and the
call fails with the wrapped upload error. -/
theorem C5_write_order (env : UpEnv) (w : World) (m : UploadModel)
    (hv : validate_data_payload m = Except.ok true) (hi : env.ipfsOk = true) :
    (upload_metadata env w m).trace =
      [OEvent.contentUpload (env.cidOf m), OEvent.ledgerWrite (keyOf m) (env.cidOf m)] ∧
    (env.ledgerOk = false →
      (upload_metadata env w m).world.ipfs = (env.cidOf m, m) :: w.ipfs ∧
      (upload_metadata env w m).result =
        Except.error ("Upload failed: " ++ env.ledgerErr)) := by
  cases hl : env.ledgerOk with
  | false =>
    refine ⟨?_, fun _ => ⟨?_, ?_⟩⟩ <;> simp [upload_metadata, hv, hi, hl]
  | true =>
    refine ⟨?_, fun hcontra => ?_⟩
    · simp [upload_metadata, hv, hi, hl]
    · exact absurd hcontra (by simp)

/-- An environment whose ledger write fails after all retries. -/
def ledgerDownEnv : UpEnv := ⟨fun _ => "QmY", true, false, "ipfs down", "ledger down"⟩

/-- C5 witness: write order and blob retention at a concrete failing
ledger. -/
theorem C5_witness :
    validate_data_payload exampleModel = Except.ok true ∧
    ledgerDownEnv.ipfsOk = true ∧
    ((upload_metadata ledgerDownEnv ⟨[], []⟩ exampleModel).trace =
       [OEvent.contentUpload (ledgerDownEnv.cidOf exampleModel),
        OEvent.ledgerWrite (keyOf exampleModel) (ledgerDownEnv.cidOf exampleModel)] ∧
     (ledgerDownEnv.ledgerOk = false →
       (upload_metadata ledgerDownEnv ⟨[], []⟩ exampleModel).world.ipfs =
         (ledgerDownEnv.cidOf exampleModel, exampleModel) :: ([] : List (String × UploadModel)) ∧
       (upload_metadata ledgerDownEnv ⟨[], []⟩ exampleModel).result =
         Except.error ("Upload failed: " ++ ledgerDownEnv.ledgerErr))) :=
  ⟨rfl, rfl, C5_write_order ledgerDownEnv ⟨[], []⟩ exampleModel rfl rfl⟩

/-- A payload whose device id is digits followed by a newline: it
contains a non-digit character, yet Python's `re.match(r'^\d+$', ...)`
accepts it because `$` matches before a trailing newline. -/
def newlineModel : UploadModel := ⟨"2.0", DType.data, 1700000000, "7\n", ["s1"]⟩

/-- C9 counterexample: the payload whose `traffic_light_id` is `"7\n"`
contains a character other than a decimal digit, yet validation passes
and the upload proceeds to write to the content store and the ledger —
refuting the claim that every id containing a non-digit is rejected
before any write. -/
theorem C9_counterexample :
    ("7\n").data.all (fun c => c.isDigit) = false ∧
    validate_data_payload newlineModel = Except.ok true ∧
    (upload_metadata okEnv ⟨[], []⟩ newlineModel).trace =
      [OEvent.contentUpload "QmX", OEvent.ledgerWrite ⟨"7\n", 1700000000, 0⟩ "QmX"] ∧
    (∃ resp, (upload_metadata okEnv ⟨[], []⟩ newlineModel).result = Except.ok resp) :=
  ⟨by decide, rfl, by decide, ⟨prepare_upload_response newlineModel "QmX", rfl⟩⟩

/-- C9 amended: for a payload whose device id is all ASCII (where the
embedded regex coincides with Python's Unicode `\d`), the device-id
validation rejects the payload before any content-store or ledger write
exactly when the id fails Python's `^\d+$` — that is, when it is not one
or more digits optionally followed by a single trailing newline.  The
rejection surfaces as `UploadError("Upload failed: name
'ValidationError' is not defined")`, because validators.py raises
`NameError` in place of the unimported `ValidationError`; when the id
passes the regex, the id check succeeds and a rejection can only come
from the later field checks. -/
theorem C9_amended_regex_reject (env : UpEnv) (w : World) (m : UploadModel)
    (hascii : ∀ c ∈ m.traffic_light_id.data, c.toNat < 128) :
    (tlidRegexAccepts m.traffic_light_id = false →
      (upload_metadata env w m).trace = [] ∧
      (upload_metadata env w m).world = w ∧
      (upload_metadata env w m).result =
        Except.error ("Upload failed: " ++ nameErrorMsg)) ∧
    (tlidRegexAccepts m.traffic_light_id = true →
      validate_traffic_light_id m.traffic_light_id = Except.ok true) := by
  constructor
  · intro h
    have hval : validate_data_payload m = Except.error nameErrorMsg := by
      simp [validate_data_payload, validate_traffic_light_id, h]
    exact ⟨by simp [upload_metadata, hval], by simp [upload_metadata, hval],
      by simp [upload_metadata, hval]⟩
  · intro h
    simp [validate_traffic_light_id, h]

/-- A payload whose device id has a letter, failing the regex. -/
def alphaModel : UploadModel := ⟨"2.0", DType.data, 1700000000, "ab", ["s1"]⟩

/-- C9 witness: the amended rejection at a concrete non-digit ASCII
id. -/
theorem C9_witness :
    (∀ c ∈ alphaModel.traffic_light_id.data, c.toNat < 128) ∧
    ((tlidRegexAccepts alphaModel.traffic_light_id = false →
       (upload_metadata okEnv ⟨[], []⟩ alphaModel).trace = [] ∧
       (upload_metadata okEnv ⟨[], []⟩ alphaModel).world = ⟨[], []⟩ ∧
       (upload_metadata okEnv ⟨[], []⟩ alphaModel).result =
         Except.error ("Upload failed: " ++ nameErrorMsg)) ∧
     (tlidRegexAccepts alphaModel.traffic_light_id = true →
       validate_traffic_light_id alphaModel.traffic_light_id = Except.ok true)) :=
  ⟨by decide, C9_amended_regex_reject okEnv ⟨[], []⟩ alphaModel (by decide)⟩

/-- C10 (confirmed): a payload whose timestamp lies outside the inclusive
range 946684800..4102444800 is rejected before any content-store or
ledger write; non-integer timestamps cannot reach this layer because the
pydantic field type is `int`, mirrored here by `Int`.  The rejection is
validation-derived but surfaces as `UploadError("Upload failed: name
'ValidationError' is not defined")`, since every failing validation
raises `NameError` in place of the unimported `ValidationError`. -/
theorem C10_timestamp_range (env : UpEnv) (w : World) (m : UploadModel)
    (h : m.timestamp < 946684800 ∨ m.timestamp > 4102444800) :
    (upload_metadata env w m).trace = [] ∧
    (upload_metadata env w m).world = w ∧
    (upload_metadata env w m).result =
      Except.error ("Upload failed: " ++ nameErrorMsg) := by
  have hval : validate_data_payload m = Except.error nameErrorMsg := by
    cases hid : validate_traffic_light_id m.traffic_light_id with
    | error e0 => simp [validate_data_payload, hid]
    | ok b =>
      have hts : validate_timestamp m.timestamp = Except.error
          ("Timestamp " ++ toString m.timestamp ++
            " is outside valid range (946684800-4102444800)") := by
        unfold validate_timestamp
        rw [if_pos h]
      simp [validate_data_payload, hid, hts]
  exact ⟨by simp [upload_metadata, hval], by simp [upload_metadata, hval],
    by simp [upload_metadata, hval]⟩

/-- A payload dated before the year 2000. -/
def earlyModel : UploadModel := ⟨"2.0", DType.data, 100, "21", ["s1"]⟩

/-- C10 witness: the range rejection at a concrete too-early timestamp. -/
theorem C10_witness :
    (earlyModel.timestamp < 946684800 ∨ earlyModel.timestamp > 4102444800) ∧
    ((upload_metadata okEnv ⟨[], []⟩ earlyModel).trace = [] ∧
     (upload_metadata okEnv ⟨[], []⟩ earlyModel).world = ⟨[], []⟩ ∧
     (upload_metadata okEnv ⟨[], []⟩ earlyModel).result =
       Except.error ("Upload failed: " ++ nameErrorMsg)) :=
  ⟨by decide, C10_timestamp_range okEnv ⟨[], []⟩ earlyModel (by decide)⟩

/-! ## Fee estimation (`BlockDAGService._calculate_optimal_gas_price`,
src/modules/storage/blockdag.py lines 433-444). -/

/-- The multiplier schedule of blockdag.py line 437. -/
def gas_multipliers : List ℚ := [3/2, 2, 3, 5, 8]

/-- The multiplier chosen for an attempt:
`multipliers[min(attempt, len(multipliers) - 1)]` (line 438). -/
def schedMult (attempt : Nat) : ℚ :=
  gas_multipliers.getD (min attempt (gas_multipliers.length - 1)) 0

/-- `_calculate_optimal_gas_price` (blockdag.py lines 433-444).
`baseFee` is the observed `w3.eth.gas_price` (`none` when the read
raises) and `r` models `random.random()`, a value in `[0, 1)`; the float
arithmetic of the source is idealized as exact rational arithmetic, and
Python's `int(...)` truncation is the floor of the nonnegative product.
On a failed base-fee read the fallback is
`int(10_000_000_000 * 1.5 ** attempt)`. -/
def calculate_optimal_gas_price (baseFee : Option Nat) (r : ℚ) (attempt : Nat) : ℤ :=
  match baseFee with
  | some base => ((base : ℚ) * schedMult attempt * (1 + r * (1 / 10))).floor
  | none => ((10000000000 : ℚ) * (3 / 2 : ℚ) ^ attempt).floor

/-- Closed form of the multiplier schedule. -/
def schedVal : Nat → ℚ
  | 0 => 3 / 2
  | 1 => 2
  | 2 => 3
  | 3 => 5
  | _ + 4 => 8

lemma schedMult_eq (n : Nat) : schedMult n = schedVal n := by
  match n with
  | 0 => rfl
  | 1 => rfl
  | 2 => rfl
  | 3 => rfl
  | k + 4 =>
    have hlen : gas_multipliers.length - 1 = 4 := rfl
    have h : min (k + 4) (gas_multipliers.length - 1) = 4 := by
      rw [hlen]; omega
    unfold schedMult
    rw [h]
    rfl

lemma schedVal_le_succ (n : Nat) : schedVal n ≤ schedVal (n + 1) := by
  match n with
  | 0 => norm_num [schedVal]
  | 1 => norm_num [schedVal]
  | 2 => norm_num [schedVal]
  | 3 => norm_num [schedVal]
  | k + 4 => norm_num [schedVal]

/-- C7 (confirmed): with a readable base fee the estimate is the floor of
the base fee times the schedule entry `[1.5, 2, 3, 5, 8][min(attempt, 4)]`
times the jitter `1 + r/10`, which lies in `[1, 1.1)` for `r` in `[0, 1)`;
the schedule multiplier is monotonically non-decreasing in the attempt and
equal to 8 for all attempts at least 4; and when the base-fee read fails
the estimate is the floor of `10_000_000_000 * 1.5 ^ attempt`. -/
theorem C7_gas_price (base : Nat) (r : ℚ) (a b : Nat)
    (h0 : 0 ≤ r) (h1 : r < 1) (hab : a ≤ b) :
    calculate_optimal_gas_price (some base) r a =
      ((base : ℚ) * schedMult a * (1 + r * (1 / 10))).floor ∧
    (1 ≤ 1 + r * (1 / 10) ∧ 1 + r * (1 / 10) < 11 / 10) ∧
    schedMult a ≤ schedMult b ∧
    (4 ≤ a → schedMult a = 8) ∧
    calculate_optimal_gas_price none r a =
      ((10000000000 : ℚ) * (3 / 2 : ℚ) ^ a).floor := by
  refine ⟨rfl, ⟨by linarith, by linarith⟩, ?_, ?_, rfl⟩
  · rw [schedMult_eq, schedMult_eq]
    exact monotone_nat_of_le_succ schedVal_le_succ hab
  · intro ha
    rw [schedMult_eq]
    obtain ⟨k, hk⟩ := Nat.le.dest ha
    rw [← hk, Nat.add_comm]
    rfl

/-- C7 witness: the fee estimate at base fee 20, jitter draw 1/2,
attempts 1 and 3. -/
theorem C7_witness :
    (0 : ℚ) ≤ 1 / 2 ∧ (1 / 2 : ℚ) < 1 ∧ (1 : Nat) ≤ 3 ∧
    (calculate_optimal_gas_price (some 20) (1 / 2) 1 =
       ((20 : ℚ) * schedMult 1 * (1 + (1 / 2) * (1 / 10))).floor ∧
     (1 ≤ 1 + (1 / 2 : ℚ) * (1 / 10) ∧ 1 + (1 / 2 : ℚ) * (1 / 10) < 11 / 10) ∧
     schedMult 1 ≤ schedMult 3 ∧
     (4 ≤ 1 → schedMult 1 = 8) ∧
     calculate_optimal_gas_price none (1 / 2) 1 =
       ((10000000000 : ℚ) * (3 / 2 : ℚ) ^ 1).floor) :=
  ⟨by norm_num, by norm_num, by norm_num,
   C7_gas_price 20 (1 / 2) 1 3 (by norm_num) (by norm_num) (by norm_num)⟩

/-! ## Nonce issuance under concurrency
(`BlockDAGService._get_fresh_nonce` under `self.nonce_lock`,
src/modules/storage/blockdag.py lines 191-193 and 424-431).

The `asyncio.Lock` makes each nonce read atomic with respect to the other
store calls, so a read is one step; the broadcast
(`send_raw_transaction`, line 222) is a separate later step because
suspension points sit between the two — the backoff sleep of line 202,
the 2-second sleep of line 430 and the 3-second sleep of line 245 all
yield the event loop while the lock is already released.  `pending` is
the node's pending transaction count for the sender, which
`_get_fresh_nonce` reads fresh (`get_transaction_count(sender,
"pending")`) and which a broadcast increments. -/

/-- One concurrent store call, reduced to its nonce-relevant state:
the nonce it has read, and whether it has broadcast. -/
structure NTask where
  nonce : Option Nat
  sent : Bool
deriving DecidableEq

/-- The node's pending count plus every task's state. -/
structure NSys where
  pending : Nat
  tasks : Nat → NTask

/-- Atomic actions: task `i` reads its nonce under the lock, or task `i`
broadcasts its signed transaction. -/
inductive NAct where
  | read (i : Nat)
  | bcast (i : Nat)

/-- One interleaving step.  A read stores the current pending count as
the task's nonce; a broadcast marks the task sent and increments the
node's pending count.  Program order is enforced: a task reads once and
broadcasts only after reading. -/
def nstep (s : NSys) : NAct → NSys
  | NAct.read i =>
    if (s.tasks i).nonce = none then
      { s with tasks := fun j => if j = i then ⟨some s.pending, (s.tasks i).sent⟩
                                 else s.tasks j }
    else s
  | NAct.bcast i =>
    if (s.tasks i).nonce ≠ none ∧ (s.tasks i).sent = false then
      { pending := s.pending + 1,
        tasks := fun j => if j = i then ⟨(s.tasks i).nonce, true⟩ else s.tasks j }
    else s

/-- Run a schedule of interleaved actions. -/
def nrun (s : NSys) (acts : List NAct) : NSys := acts.foldl nstep s

/-- N tasks, none started, at on-chain nonce `base`. -/
def ninit (base : Nat) : NSys := ⟨base, fun _ => ⟨none, false⟩⟩

/-- The schedule in which every broadcast lands (and is visible in the
pending pool) before the next task reads its nonce. -/
def seqSched : Nat → List NAct
  | 0 => []
  | n + 1 => seqSched n ++ [NAct.read n, NAct.bcast n]

lemma nrun_seq (base : Nat) : ∀ N,
    (nrun (ninit base) (seqSched N)).pending = base + N ∧
    ∀ i, (nrun (ninit base) (seqSched N)).tasks i =
      if i < N then ⟨some (base + i), true⟩ else ⟨none, false⟩ := by
  intro N
  induction N with
  | zero =>
    refine ⟨rfl, fun i => ?_⟩
    simp [nrun, seqSched, ninit]
  | succ N ih =>
    obtain ⟨hp, ht⟩ := ih
    have hrun : nrun (ninit base) (seqSched (N + 1)) =
        nstep (nstep (nrun (ninit base) (seqSched N)) (NAct.read N)) (NAct.bcast N) := by
      show nrun (ninit base) (seqSched N ++ [NAct.read N, NAct.bcast N]) = _
      unfold nrun
      rw [List.foldl_append]
      rfl
    set s0 := nrun (ninit base) (seqSched N) with hs0
    set s1 := nstep s0 (NAct.read N) with hs1
    set s2 := nstep s1 (NAct.bcast N) with hs2
    have htN : s0.tasks N = ⟨none, false⟩ := by
      rw [ht]; simp
    have h1p : s1.pending = base + N := by
      rw [hs1]; simp [nstep, htN, hp]
    have h1N : s1.tasks N = ⟨some (base + N), false⟩ := by
      rw [hs1]; simp [nstep, htN, hp]
    have h1j : ∀ j, j ≠ N → s1.tasks j = s0.tasks j := by
      intro j hj
      rw [hs1]; simp [nstep, htN, hj]
    have h2p : s2.pending = base + N + 1 := by
      rw [hs2]; simp [nstep, h1N, h1p]
    have h2N : s2.tasks N = ⟨some (base + N), true⟩ := by
      rw [hs2]; simp [nstep, h1N]
    have h2j : ∀ j, j ≠ N → s2.tasks j = s1.tasks j := by
      intro j hj
      rw [hs2]; simp [nstep, h1N, hj]
    rw [hrun]
    refine ⟨by rw [h2p]; omega, fun i => ?_⟩
    by_cases hi : i = N
    · subst hi
      rw [h2N]
      simp
    · rw [h2j i hi, h1j i hi, ht i]
      by_cases hlt : i < N
      · have hlt2 : i < N + 1 := by omega
        simp [hlt, hlt2]
      · have hlt2 : ¬ i < N + 1 := by omega
        simp [hlt, hlt2]

/-- C8 amended: nonce reads are serialized by the lock and each returns
the node's current pending count, so under the schedule in which every
broadcast reaches the pending pool before the next read, N concurrent
store calls are issued exactly the nonces `base, base+1, ..., base+N-1`;
the counterexample schedule shows the no-repeat guarantee does not hold
for every interleaving, because the critical section covers only the
read and a second call can read before the first call broadcasts. -/
theorem C8_amended_sequential_nonces (base N : Nat) :
    (List.range N).map (fun i => ((nrun (ninit base) (seqSched N)).tasks i).nonce) =
      (List.range N).map (fun i => some (base + i)) := by
  have h := (nrun_seq base N).2
  rw [List.map_eq_map_iff]
  intro i hi
  rw [List.mem_range] at hi
  rw [h i]
  simp [hi]

/-- Two concurrent calls that both read before either broadcasts — the
interleaving that arises when the first call sits in a suspension point
(for example the backoff sleep) between its nonce read and its
broadcast. -/
def dupSched : List NAct := [NAct.read 0, NAct.read 1, NAct.bcast 0, NAct.bcast 1]

/-- C8 counterexample: under the overlapping schedule both completed
calls are issued nonce 5, so the issued nonces are {5, 5} and not
{5, 6} — refuting the claimed no-repeat guarantee for every concurrent
execution. -/
theorem C8_counterexample :
    (nrun (ninit 5) dupSched).tasks 0 = ⟨some 5, true⟩ ∧
    (nrun (ninit 5) dupSched).tasks 1 = ⟨some 5, true⟩ ∧
    (nrun (ninit 5) dupSched).pending = 7 ∧
    ¬ ((List.range 2).map (fun i => ((nrun (ninit 5) dupSched).tasks i).nonce) =
        (List.range 2).map (fun i => some (5 + i))) :=
  ⟨by decide, by decide, by decide, by decide⟩

end TrafficStorage
